import Mathlib

/-!
Verification development for the Life_n_Grace repository.

Part 1 embeds the mobile card-draw screen (src/App.tsx together with
src/src/data/cards.ts). The Math.random() result is passed explicitly as a
rational number r with 0 ≤ r < 1; React state is threaded explicitly
through an AppState value.

Part 2 models the Suggestion Client subsystem described by the
specification; its code is not among the repository sources (only
documentation describes it), so the definitions there are modelled from
the spec and say so in their doc comments.
-/

/-- Card shape from src/src/data/cards.ts: a string id and a string title. -/
structure Card where
  id : String
  title : String
deriving DecidableEq

/-- The static cards list exported by src/src/data/cards.ts, verbatim. -/
def cards : List Card := [
  ⟨"GraceToGrace001", "God Loves You"⟩,
  ⟨"GraceToGrace002", "You Are Forgiven"⟩,
  ⟨"GraceToGrace003", "God Is With You"⟩,
  ⟨"GraceToGrace004", "You Are Blessed"⟩,
  ⟨"GraceToGrace005", "God Has A Plan"⟩,
  ⟨"GraceToGrace006", "You Are Loved"⟩,
  ⟨"GraceToGrace007", "God Is Faithful"⟩,
  ⟨"GraceToGrace008", "You Are Strong"⟩,
  ⟨"GraceToGrace009", "God Is Good"⟩,
  ⟨"GraceToGrace010", "You Are Chosen"⟩]

/-- State of the App component in src/App.tsx: the module-level cards
binding threaded explicitly (so that frame properties about it are
expressible), the currentCard useState hook (null initially, here none),
and the fadeAnim animated value. -/
structure AppState where
  cardsList : List Card
  currentCard : Option Card
  fadeAnim : ℚ
deriving DecidableEq

/-- The initial App state: currentCard is null, fadeAnim starts at 0, and
the cards list is the imported static list. -/
def initialState : AppState := ⟨cards, none, 0⟩

/-- The index Math.floor(r * cards.length) computed inside drawCard, with
the Math.random() result r passed explicitly as a rational. -/
def randomIndex (r : ℚ) (len : ℕ) : ℤ := ⌊r * (len : ℚ)⌋

/-- JavaScript array access arr[i] at an integer index: the element when
the index is in bounds, undefined (none) otherwise. -/
def jsGet (l : List Card) (i : ℤ) : Option Card :=
  if h : 0 ≤ i ∧ i.toNat < l.length then some (l.get ⟨i.toNat, h.2⟩) else none

/-- drawCard from src/App.tsx: reset fadeAnim to 0, compute the random
index Math.floor(r * cards.length), read the card at that index, and set
currentCard to the value read. The asynchronous Animated.timing toward 1
is a UI-only effect outside the model. -/
def drawCard (r : ℚ) (s : AppState) : AppState :=
  { s with fadeAnim := 0,
           currentCard := jsGet s.cardsList (randomIndex r s.cardsList.length) }

/-- A value produced by jsGet is an element of the list. -/
lemma jsGet_mem {l : List Card} {i : ℤ} {c : Card} (h : jsGet l i = some c) :
    c ∈ l := by
  unfold jsGet at h
  split at h
  · exact (Option.some_inj.mp h) ▸ List.get_mem l _ _
  · exact absurd h (by simp)

/-- For 0 ≤ r < 1 and a positive length, the random index is in bounds. -/
lemma randomIndex_bounds {r : ℚ} {len : ℕ} (h0 : 0 ≤ r) (h1 : r < 1)
    (hlen : 0 < len) : 0 ≤ randomIndex r len ∧ randomIndex r len < len := by
  unfold randomIndex
  constructor
  · exact Int.floor_nonneg.mpr (mul_nonneg h0 (by positivity))
  · refine Int.floor_lt.mpr ?_
    calc r * (len : ℚ) < 1 * (len : ℚ) := by
          exact mul_lt_mul_of_pos_right h1 (by exact_mod_cast hlen)
      _ = (len : ℚ) := one_mul _
      _ = ((len : ℤ) : ℚ) := by push_cast; ring

/-- For 0 ≤ r < 1 and a non-empty list, jsGet at the random index yields
some element of the list. -/
lemma jsGet_randomIndex_some {l : List Card} (hl : l ≠ []) {r : ℚ}
    (h0 : 0 ≤ r) (h1 : r < 1) :
    ∃ c ∈ l, jsGet l (randomIndex r l.length) = some c := by
  have hlen : 0 < l.length := List.length_pos.mpr hl
  obtain ⟨hge, hlt⟩ := randomIndex_bounds h0 h1 hlen
  have htn : (randomIndex r l.length).toNat < l.length := by
    omega
  refine ⟨l.get ⟨(randomIndex r l.length).toNat, htn⟩, List.get_mem l _ _, ?_⟩
  unfold jsGet
  rw [dif_pos ⟨hge, htn⟩]

/-- Folding drawCard over any sequence of random values leaves the cards
list untouched. -/
lemma foldl_drawCard_cardsList (rs : List ℚ) (s : AppState) :
    (rs.foldl (fun a r => drawCard r a) s).cardsList = s.cardsList := by
  induction rs generalizing s with
  | nil => rfl
  | cons x xs ih => simpa [drawCard] using ih (drawCard x s)

/-- C1: the static card list contains exactly ten cards, and drawCard
with any Math.random() value r in [0,1) selects its card by a random
index into that list, so the drawn card is one of those ten fixed
cards. -/
theorem C1_draw_one_of_ten_fixed_cards (r : ℚ) (s : AppState)
    (hs : s.cardsList = cards) (h0 : 0 ≤ r) (h1 : r < 1) :
    cards.length = 10 ∧ ∃ c ∈ cards, (drawCard r s).currentCard = some c := by
  refine ⟨by decide, ?_⟩
  obtain ⟨c, hc, hget⟩ := jsGet_randomIndex_some (l := cards) (by decide) h0 h1
  exact ⟨c, hc, by simp [drawCard, hs, hget]⟩

/-- Witness for C1 at r = 1/2 from the initial state. -/
theorem C1_draw_one_of_ten_fixed_cards_witness :
    cards.length = 10 ∧
    ∃ c ∈ cards, (drawCard (1/2) initialState).currentCard = some c :=
  C1_draw_one_of_ten_fixed_cards (1/2) initialState rfl (by norm_num)
    (by norm_num)

/-- C2: the card draw is a pure selection over a static list: after any
sequence of draws the cards list, and hence its length, its ids and its
titles, are identical to what they were before. -/
theorem C2_draw_never_modifies_cards (rs : List ℚ) (s : AppState) :
    (rs.foldl (fun a r => drawCard r a) s).cardsList = s.cardsList ∧
    (rs.foldl (fun a r => drawCard r a) s).cardsList.length
      = s.cardsList.length ∧
    (rs.foldl (fun a r => drawCard r a) s).cardsList.map Card.id
      = s.cardsList.map Card.id ∧
    (rs.foldl (fun a r => drawCard r a) s).cardsList.map Card.title
      = s.cardsList.map Card.title := by
  have h := foldl_drawCard_cardsList rs s
  exact ⟨h, by rw [h], by rw [h], by rw [h]⟩

/-- C8: for every Math.random() value r with 0 ≤ r < 1, the index
Math.floor(r * cards.length) is in bounds, the list access yields a card
rather than undefined, and after the draw currentCard is an actual
card. -/
theorem C8_random_index_in_bounds (r : ℚ) (s : AppState)
    (hs : s.cardsList = cards) (h0 : 0 ≤ r) (h1 : r < 1) :
    0 ≤ randomIndex r cards.length ∧
    randomIndex r cards.length < cards.length ∧
    (jsGet cards (randomIndex r cards.length)).isSome ∧
    (drawCard r s).currentCard.isSome := by
  obtain ⟨hge, hlt⟩ := randomIndex_bounds h0 h1 (show 0 < cards.length by decide)
  obtain ⟨c, _, hget⟩ := jsGet_randomIndex_some (l := cards) (by decide) h0 h1
  exact ⟨hge, hlt, by rw [hget]; rfl, by simp [drawCard, hs, hget]⟩

/-- Witness for C8 at r = 9/10 from the initial state. -/
theorem C8_random_index_in_bounds_witness :
    0 ≤ randomIndex (9/10) cards.length ∧
    randomIndex (9/10) cards.length < cards.length ∧
    (jsGet cards (randomIndex (9/10) cards.length)).isSome ∧
    (drawCard (9/10) initialState).currentCard.isSome :=
  C8_random_index_in_bounds (9/10) initialState rfl (by norm_num) (by norm_num)

/-- C9: the ten cards carry pairwise-distinct ids GraceToGrace001 through
GraceToGrace010 and non-empty titles, so a drawn card is uniquely
identified by its id. -/
theorem C9_cards_distinct_ids_nonempty_titles :
    cards.map Card.id =
      ["GraceToGrace001", "GraceToGrace002", "GraceToGrace003",
       "GraceToGrace004", "GraceToGrace005", "GraceToGrace006",
       "GraceToGrace007", "GraceToGrace008", "GraceToGrace009",
       "GraceToGrace010"] ∧
    (cards.map Card.id).Nodup ∧
    ∀ c ∈ cards, c.title ≠ "" := by decide

/-- Witness for C9 at the first card of the list. -/
theorem C9_cards_distinct_ids_nonempty_titles_witness :
    (Card.mk "GraceToGrace001" "God Loves You").title ≠ "" :=
  C9_cards_distinct_ids_nonempty_titles.2.2
    (Card.mk "GraceToGrace001" "God Loves You") (by decide)

/-- C10: currentCard starts as null, and after any non-empty sequence of
draws whose Math.random() values lie in [0,1) it is some card from the
list — the screen never returns to the empty state. -/
theorem C10_never_back_to_empty (rs : List ℚ) (hne : rs ≠ [])
    (hvalid : ∀ r ∈ rs, 0 ≤ r ∧ r < 1) :
    initialState.currentCard = none ∧
    ∃ c ∈ cards,
      (rs.foldl (fun a r => drawCard r a) initialState).currentCard
        = some c := by
  refine ⟨rfl, ?_⟩
  obtain ⟨xs, x, rfl⟩ := (List.eq_nil_or_concat rs).resolve_left hne
  have hx : 0 ≤ x ∧ x < 1 := hvalid x (by simp)
  rw [List.concat_eq_append, List.foldl_append]
  set mid := xs.foldl (fun a r => drawCard r a) initialState with hmid
  have hcl : mid.cardsList = cards := foldl_drawCard_cardsList xs initialState
  obtain ⟨c, hc, hget⟩ :=
    jsGet_randomIndex_some (l := cards) (by decide) hx.1 hx.2
  exact ⟨c, hc, by simp [drawCard, hcl, hget]⟩

/-- Witness for C10 at the single-draw sequence [1/2]. -/
theorem C10_never_back_to_empty_witness :
    initialState.currentCard = none ∧
    ∃ c ∈ cards,
      (([(1/2 : ℚ)]).foldl (fun a r => drawCard r a) initialState).currentCard
        = some c :=
  C10_never_back_to_empty [1/2] (by simp)
    (by intro r hr; rw [List.mem_singleton] at hr; subst hr; norm_num)

/-!
Part 2: the Suggestion Client. The repository sources contain only the
card-draw screen; the Suggestion Client exists in the operational
documentation alone, so every definition below is modelled from the
specification text (sections 3, 4, 7 of the spec).
-/

/-- Modelled from the spec: the configuration error taxonomy of section
7, a MissingRequired error carrying the name of the missing required
field. -/
inductive ConfigError where
  | MissingRequired (field : String)
deriving DecidableEq

/-- Modelled from the spec: the client error taxonomy of section 7 —
InvalidInput, Timeout, Unauthorized, RateLimited, ServerError,
MalformedResponse, Cancelled. -/
inductive ClientErrorKind where
  | InvalidInput
  | Timeout
  | Unauthorized
  | RateLimited
  | ServerError
  | MalformedResponse
  | Cancelled
deriving DecidableEq

/-- Modelled from the spec: the immutable ClientConfig value of section 3
(apiKey, baseUrl required; modelId and translation defaulted). -/
structure ClientConfig where
  apiKey : String
  baseUrl : String
  modelId : String
  translation : String
deriving DecidableEq

/-- Modelled from the spec: a source of named string settings
(environment, file, or explicit map) consumed by the Configuration
Resolver; none means the setting is absent. -/
abbrev SettingsSource : Type := String → Option String

/-- Modelled from the spec: look up one required setting; missing or
empty fails with ConfigError(kind=MissingRequired, field). -/
def getRequired (src : SettingsSource) (name : String) :
    Except ConfigError String :=
  match src name with
  | none => .error (.MissingRequired name)
  | some v => if v = "" then .error (.MissingRequired name) else .ok v

/-- Modelled from the spec: resolve(settingsSource) of section 4.1.
Required settings apiKey and baseUrl (missing or empty either one fails
with MissingRequired naming the field); optional modelId defaults to the
baseline model and translation defaults to esv, unrecognized translation
codes passing through as opaque data. Pure over its input source. -/
def resolve (src : SettingsSource) : Except ConfigError ClientConfig := do
  let apiKey ← getRequired src "apiKey"
  let baseUrl ← getRequired src "baseUrl"
  let modelId := (src "modelId").getD "openai/gpt/4o"
  let translation := (src "translation").getD "esv"
  return ⟨apiKey, baseUrl, modelId, translation⟩

/-- Modelled from the spec: one choice of a chat-completion response
body, whose message content field may be absent. -/
structure Choice where
  content : Option String
deriving DecidableEq

/-- Modelled from the spec: a transport response body — either not valid
structured data, or a structured body with a list of choices. -/
inductive ResponseBody where
  | invalid
  | withChoices (choices : List Choice)
deriving DecidableEq

/-- Modelled from the spec: an HTTP response at the transport boundary, a
numeric status together with a body. -/
structure HttpResponse where
  status : ℕ
  body : ResponseBody
deriving DecidableEq

/-- Modelled from the spec: the outcome of one outbound attempt over the
transport — either an HTTP response or a timeout (a request exceeding the
request timeout is treated as a timeout failure, not left pending). -/
inductive TransportOutcome where
  | response (r : HttpResponse)
  | timeout
deriving DecidableEq

/-- Modelled from the spec: the transport supplied by the caller, here
indexed by the attempt number since retries use a fresh outbound request
each time. -/
abbrev Transport : Type := ℕ → TransportOutcome

/-- Modelled from the spec: a structured Suggestion — free-text
encouragement plus an optional cited scripture reference. -/
structure Suggestion where
  text : String
  citation : Option String
deriving DecidableEq

/-- Modelled from the spec: the SuggestionResult of section 3, exactly
one of a Suggestion or a ClientError kind. -/
abbrev SuggestionResult : Type := Except ClientErrorKind Suggestion

/-- Modelled from the spec: response parsing of section 4.2. On a 2xx
response, extract the primary completion text choices[0].message.content;
zero choices, invalid structured data, or an absent or empty content
field fail with MalformedResponse rather than return an empty Suggestion.
Citation extraction is optional and its absence is not an error. -/
def parseResponse (b : ResponseBody) : Except ClientErrorKind Suggestion :=
  match b with
  | .invalid => .error .MalformedResponse
  | .withChoices [] => .error .MalformedResponse
  | .withChoices (c :: _) =>
    match c.content with
    | none => .error .MalformedResponse
    | some t => if t = "" then .error .MalformedResponse else .ok ⟨t, none⟩

/-- Modelled from the spec: classification of one attempt — success, a
non-transient failure surfaced immediately, or a transient failure
(timeout, 5xx, rate limit) eligible for retry. A 2xx response is parsed;
401 is Unauthorized and 429 is RateLimited; 5xx is ServerError and
transient; any other status is a non-transient client-side failure. -/
inductive AttemptResult where
  | success (s : Suggestion)
  | fatal (k : ClientErrorKind)
  | transient (k : ClientErrorKind)
deriving DecidableEq

/-- Modelled from the spec: run one attempt over the transport and
classify its outcome per sections 4.2 and 7. -/
def runAttempt (t : Transport) (i : ℕ) : AttemptResult :=
  match t i with
  | .timeout => .transient .Timeout
  | .response r =>
    if 200 ≤ r.status ∧ r.status < 300 then
      match parseResponse r.body with
      | .ok s => .success s
      | .error k => .fatal k
    else if r.status = 401 then .fatal .Unauthorized
    else if r.status = 429 then .transient .RateLimited
    else if 500 ≤ r.status then .transient .ServerError
    else .fatal .InvalidInput

/-- Modelled from the spec: the bounded retry budget — 1 original attempt
plus up to 2 retries, 3 total attempts. -/
def maxAttempts : ℕ := 3

/-- Modelled from the spec: the retry loop of section 4.2, returning the
result together with the number of transport invocations made. Transient
failures are retried while budget remains (the backoff delays are timing
only and not modelled); non-transient failures and successes return at
once; an exhausted budget surfaces the last transient failure. -/
def retryFrom (t : Transport) (start : ℕ) : ℕ → SuggestionResult × ℕ
  | 0 => (.error .ServerError, 0)
  | n + 1 =>
    match runAttempt t start with
    | .success s => (.ok s, 1)
    | .fatal k => (.error k, 1)
    | .transient k =>
      if n = 0 then (.error k, 1)
      else
        let p := retryFrom t (start + 1) n
        (p.1, p.2 + 1)

/-- Modelled from the spec: the input constraint of section 4.2 — a
journal text is rejected when it is empty after trimming whitespace,
which holds exactly when every character of it is whitespace. -/
def isBlank (s : String) : Bool := s.data.all (fun c => c.isWhitespace)

/-- Modelled from the spec: suggest(journalText, config, transport) of
section 4.2, instrumented with the count of transport invocations.
journalText empty after trimming fails fast with InvalidInput and zero
network calls; otherwise the request is dispatched with the bounded
retry policy. -/
def suggest (journalText : String) (cfg : ClientConfig) (t : Transport) :
    SuggestionResult × ℕ :=
  if isBlank journalText then (.error .InvalidInput, 0)
  else retryFrom t 0 maxAttempts

/-- A 500 response classifies as a transient ServerError. -/
lemma runAttempt_500 {t : Transport} {i : ℕ} {b : ResponseBody}
    (h : t i = .response ⟨500, b⟩) :
    runAttempt t i = .transient .ServerError := by
  simp [runAttempt, h]

/-- A 401 response classifies as a fatal Unauthorized. -/
lemma runAttempt_401 {t : Transport} {i : ℕ} {b : ResponseBody}
    (h : t i = .response ⟨401, b⟩) :
    runAttempt t i = .fatal .Unauthorized := by
  simp [runAttempt, h]

/-- C3: a blank journal text (empty after trimming whitespace) makes
suggest fail fast with InvalidInput and zero transport invocations, for
every configuration and transport. -/
theorem C3_blank_input_fails_without_network (jt : String)
    (cfg : ClientConfig) (t : Transport) (h : isBlank jt = true) :
    suggest jt cfg t = (.error .InvalidInput, 0) := by
  simp [suggest, h]

/-- A concrete configuration used by witnesses. -/
def cfgW : ClientConfig :=
  ⟨"key", "https://api.example.com", "openai/gpt/4o", "esv"⟩

/-- A transport answering HTTP 500 with an invalid body on every
attempt, used by witnesses. -/
def t500 : Transport := fun _ => .response ⟨500, .invalid⟩

/-- Witness for C3 at a whitespace-only journal text. -/
theorem C3_blank_input_fails_without_network_witness :
    suggest "  " cfgW t500 = (.error .InvalidInput, 0) :=
  C3_blank_input_fails_without_network "  " cfgW t500 (by decide)

/-- C4: a transport returning HTTP 500 on every attempt makes suggest
surface ServerError after exactly three transport invocations (one
original attempt plus two retries), for every non-blank journal text and
configuration. -/
theorem C4_all_500_yields_server_error_three_attempts (jt : String)
    (cfg : ClientConfig) (t : Transport) (hjt : isBlank jt = false)
    (ht : ∀ i, ∃ b, t i = .response ⟨500, b⟩) :
    suggest jt cfg t = (.error .ServerError, 3) := by
  obtain ⟨b0, h0⟩ := ht 0
  obtain ⟨b1, h1⟩ := ht 1
  obtain ⟨b2, h2⟩ := ht 2
  simp [suggest, hjt, maxAttempts, retryFrom,
        runAttempt_500 h0, runAttempt_500 h1, runAttempt_500 h2]

/-- Witness for C4 with an always-500 transport. -/
theorem C4_all_500_yields_server_error_three_attempts_witness :
    suggest "help" cfgW t500 = (.error .ServerError, 3) :=
  C4_all_500_yields_server_error_three_attempts "help" cfgW t500
    (by decide) (fun _ => ⟨.invalid, rfl⟩)

/-- A transport answering HTTP 401 on every attempt, used by a
witness. -/
def t401 : Transport := fun _ => .response ⟨401, .invalid⟩

/-- C5: a transport returning HTTP 401 on the first attempt makes
suggest surface Unauthorized after exactly one transport invocation (no
retry), for every non-blank journal text and configuration. -/
theorem C5_unauthorized_single_attempt (jt : String) (cfg : ClientConfig)
    (t : Transport) (b : ResponseBody) (hjt : isBlank jt = false)
    (h0 : t 0 = .response ⟨401, b⟩) :
    suggest jt cfg t = (.error .Unauthorized, 1) := by
  simp [suggest, hjt, maxAttempts, retryFrom, runAttempt_401 h0]

/-- Witness for C5 with an always-401 transport. -/
theorem C5_unauthorized_single_attempt_witness :
    suggest "help" cfgW t401 = (.error .Unauthorized, 1) :=
  C5_unauthorized_single_attempt "help" cfgW t401 .invalid (by decide) rfl

/-- A response body is malformed in the sense of the claim when it is
not valid structured data, has zero choices, or its first choice has an
absent or empty content field. -/
def malformedBody (b : ResponseBody) : Prop :=
  b = .invalid ∨ b = .withChoices [] ∨
  ∃ c cs, b = .withChoices (c :: cs) ∧
    (c.content = none ∨ c.content = some "")

/-- Parsing a malformed body yields MalformedResponse. -/
lemma parse_malformed {b : ResponseBody} (h : malformedBody b) :
    parseResponse b = .error .MalformedResponse := by
  rcases h with h | h | ⟨c, cs, h, hc⟩
  · subst h; rfl
  · subst h; rfl
  · subst h; rcases hc with hc | hc <;> simp [parseResponse, hc]

/-- A successfully parsed suggestion has non-empty text. -/
lemma parse_ok_text_ne {b : ResponseBody} {s : Suggestion}
    (h : parseResponse b = .ok s) : s.text ≠ "" := by
  cases b with
  | invalid => simp [parseResponse] at h
  | withChoices cs =>
    cases cs with
    | nil => simp [parseResponse] at h
    | cons c rest =>
      cases hc : c.content with
      | none => simp [parseResponse, hc] at h
      | some txt =>
        by_cases htxt : txt = ""
        · simp [parseResponse, hc, htxt] at h
        · simp [parseResponse, hc, htxt] at h
          subst h
          exact htxt

/-- A successful attempt carries a suggestion with non-empty text. -/
lemma runAttempt_success_text_ne {t : Transport} {i : ℕ} {s : Suggestion}
    (h : runAttempt t i = .success s) : s.text ≠ "" := by
  unfold runAttempt at h
  cases ht : t i with
  | timeout => rw [ht] at h; simp at h
  | response r =>
    rw [ht] at h
    simp only at h
    split at h
    · cases hp : parseResponse r.body with
      | ok s2 =>
        rw [hp] at h
        simp at h
        exact h ▸ parse_ok_text_ne hp
      | error k => rw [hp] at h; simp at h
    · split at h
      · simp at h
      · split at h
        · simp at h
        · split at h <;> simp at h

/-- A successful retry loop stems from some successful attempt. -/
lemma retryFrom_ok {t : Transport} {s : Suggestion} {n start m : ℕ}
    (h : retryFrom t start n = (.ok s, m)) :
    ∃ i, runAttempt t i = .success s := by
  induction n generalizing start m with
  | zero => exact absurd h (by simp [retryFrom])
  | succ k ih =>
    unfold retryFrom at h
    split at h
    · rename_i s2 ha
      simp at h
      exact ⟨start, h.1 ▸ ha⟩
    · rename_i k2 ha
      simp at h
    · rename_i k2 ha
      by_cases hk : k = 0
      · rw [if_pos hk] at h; simp at h
      · rw [if_neg hk] at h
        simp [Prod.ext_iff] at h
        exact ih (Prod.ext_iff.mpr ⟨h.1, rfl⟩)

/-- suggest never produces a suggestion with empty text. -/
lemma suggest_ok_text_ne {jt : String} {cfg : ClientConfig}
    {t : Transport} {s : Suggestion} {m : ℕ}
    (h : suggest jt cfg t = (.ok s, m)) : s.text ≠ "" := by
  unfold suggest at h
  split at h
  · simp at h
  · obtain ⟨i, hi⟩ := retryFrom_ok h
    exact runAttempt_success_text_ne hi

/-- C6: a 2xx response whose body has zero choices, is invalid
structured data, or lacks a non-empty content field makes suggest
surface MalformedResponse in one attempt, and suggest never returns a
Suggestion with empty text for any input. -/
theorem C6_malformed_two_xx_never_empty_suggestion (jt : String)
    (cfg : ClientConfig) (t : Transport) (resp : HttpResponse)
    (hjt : isBlank jt = false) (h0 : t 0 = .response resp)
    (h2 : 200 ≤ resp.status ∧ resp.status < 300)
    (hm : malformedBody resp.body) :
    suggest jt cfg t = (.error .MalformedResponse, 1) ∧
    ∀ (jt2 : String) (cfg2 : ClientConfig) (t2 : Transport)
      (s : Suggestion) (m : ℕ),
      suggest jt2 cfg2 t2 = (.ok s, m) → s.text ≠ "" := by
  constructor
  · have r0 : runAttempt t 0 = .fatal .MalformedResponse := by
      simp [runAttempt, h0, if_pos h2, parse_malformed hm]
    simp [suggest, hjt, maxAttempts, retryFrom, r0]
  · intro jt2 cfg2 t2 s m h
    exact suggest_ok_text_ne h

/-- A transport answering HTTP 200 with an empty choices list, used by a
witness. -/
def t200empty : Transport := fun _ => .response ⟨200, .withChoices []⟩

/-- Witness for C6 with a 200 response carrying zero choices. -/
theorem C6_malformed_two_xx_never_empty_suggestion_witness :
    suggest "help" cfgW t200empty = (.error .MalformedResponse, 1) :=
  (C6_malformed_two_xx_never_empty_suggestion "help" cfgW t200empty
    ⟨200, .withChoices []⟩ (by decide) rfl (by decide)
    (Or.inr (Or.inl rfl))).1

/-- C7: a settings source whose apiKey or baseUrl is missing or empty
makes resolve fail with MissingRequired naming the offending field — a
missing or empty apiKey names apiKey, and when the apiKey is present and
non-empty the named field is baseUrl — and no ClientConfig is
constructed. -/
theorem C7_missing_required_setting (src : SettingsSource)
    (h : src "apiKey" = none ∨ src "apiKey" = some "" ∨
         src "baseUrl" = none ∨ src "baseUrl" = some "") :
    ∃ f, resolve src = .error (.MissingRequired f) ∧
      ((src "apiKey" = none ∨ src "apiKey" = some "") → f = "apiKey") ∧
      (¬(src "apiKey" = none ∨ src "apiKey" = some "") → f = "baseUrl") := by
  cases hk : src "apiKey" with
  | none =>
    exact ⟨"apiKey", by simp [resolve, getRequired, hk, Bind.bind, Except.bind],
           fun _ => rfl, fun hn => absurd (Or.inl rfl) hn⟩
  | some v =>
    by_cases hv : v = ""
    · subst hv
      exact ⟨"apiKey", by simp [resolve, getRequired, hk, Bind.bind, Except.bind],
             fun _ => rfl, fun hn => absurd (Or.inr rfl) hn⟩
    · have hb : src "baseUrl" = none ∨ src "baseUrl" = some "" := by
        rcases h with h | h | h | h
        · rw [hk] at h; exact absurd h (by simp)
        · rw [hk] at h; simp at h; exact absurd h hv
        · exact Or.inl h
        · exact Or.inr h
      refine ⟨"baseUrl", ?_, ?_, fun _ => rfl⟩
      · rcases hb with hb | hb <;>
          simp [resolve, getRequired, hk, hv, hb, Bind.bind, Except.bind]
      · intro hc
        exfalso
        rcases hc with hc | hc
        · exact Option.noConfusion hc
        · exact hv (Option.some_inj.mp hc)

/-- A settings source missing the apiKey setting, used by a witness. -/
def srcW : SettingsSource :=
  fun n => if n = "baseUrl" then some "https://api.example.com" else none

/-- Witness for C7 at a source that has a baseUrl but no apiKey. -/
theorem C7_missing_required_setting_witness :
    ∃ f, resolve srcW = .error (.MissingRequired f) ∧
      ((srcW "apiKey" = none ∨ srcW "apiKey" = some "") → f = "apiKey") ∧
      (¬(srcW "apiKey" = none ∨ srcW "apiKey" = some "") → f = "baseUrl") :=
  C7_missing_required_setting srcW (Or.inl (by decide))
